import Mathlib

/-!
# Verification of the envdiff snapshot/diff core

Shallow embedding of the `envdiff` environment-change detector
(`envdiff/storage.py`, `envdiff/diff.py`, `envdiff/snapshot.py`,
`envdiff/cli.py`) together with proofs about the embedded definitions.

Snapshot fragments are JSON-like trees (Python values that survive
`json.dumps`/`json.loads`): null, booleans, integers, floats, strings,
lists and string-keyed dicts.  They are embedded as the nested inductive
`Value`; Python distinguishes `int` and `float` as separate runtime
types, so the embedding keeps two separate numeric constructors.
-/

namespace Envdiff

/-- A JSON-like Python value, as produced by collectors and stored by
`SnapshotStorage`.  `float` is modelled as an exact rational (the claims
under study only involve float values that are exactly representable). -/
inductive Value where
  | null : Value
  | bool (b : Bool) : Value
  | int (n : Int) : Value
  | float (q : Rat) : Value
  | str (s : String) : Value
  | arr (l : List Value) : Value
  | obj (l : List (String × Value)) : Value

theorem Value.sizeOf_pos (v : Value) : 0 < sizeOf v := by
  cases v <;> simp

theorem sizeOf_lt_of_mem_arr {v : Value} {l : List Value} (h : v ∈ l) :
    sizeOf v < sizeOf (Value.arr l) := by
  have := List.sizeOf_lt_of_mem h
  simp only [Value.arr.sizeOf_spec]
  omega

theorem sizeOf_lt_of_mem_obj {kv : String × Value} {l : List (String × Value)}
    (h : kv ∈ l) : sizeOf kv.2 < sizeOf (Value.obj l) := by
  have h1 := List.sizeOf_lt_of_mem h
  have h2 : sizeOf kv = 1 + sizeOf kv.1 + sizeOf kv.2 := by
    cases kv; simp
  simp only [Value.obj.sizeOf_spec]
  omega

/-- Structural induction principle for `Value` with membership-indexed
hypotheses for the two nested-list constructors. -/
theorem Value.inductionOn {P : Value → Prop}
    (hnull : P .null) (hbool : ∀ b, P (.bool b)) (hint : ∀ n, P (.int n))
    (hfloat : ∀ q, P (.float q)) (hstr : ∀ s, P (.str s))
    (harr : ∀ l, (∀ v ∈ l, P v) → P (.arr l))
    (hobj : ∀ l, (∀ kv ∈ l, P kv.2) → P (.obj l)) : ∀ v, P v
  | .null => hnull
  | .bool b => hbool b
  | .int n => hint n
  | .float q => hfloat q
  | .str s => hstr s
  | .arr l => harr l (fun v _hv =>
      Value.inductionOn hnull hbool hint hfloat hstr harr hobj v)
  | .obj l => hobj l (fun kv _hkv =>
      Value.inductionOn hnull hbool hint hfloat hstr harr hobj kv.2)
  termination_by v => sizeOf v
  decreasing_by
  · exact sizeOf_lt_of_mem_arr _hv
  · exact sizeOf_lt_of_mem_obj _hkv

mutual

/-- Structural equality on `Value`.  This is the notion of equality the
diff layer effectively uses: DeepDiff compares runtime types before
values, so `int 5` and `float 5` are *not* equal here even though Python
`5 == 5.0` holds -- DeepDiff reports such pairs as `type_changes`. -/
def Value.beq : Value → Value → Bool
  | .null, .null => true
  | .bool x, .bool y => x == y
  | .int x, .int y => x == y
  | .float x, .float y => x == y
  | .str x, .str y => x == y
  | .arr l1, .arr l2 => Value.beqList l1 l2
  | .obj o1, .obj o2 => Value.beqObj o1 o2
  | _, _ => false

def Value.beqList : List Value → List Value → Bool
  | [], [] => true
  | v :: vs, w :: ws => Value.beq v w && Value.beqList vs ws
  | _, _ => false

def Value.beqObj : List (String × Value) → List (String × Value) → Bool
  | [], [] => true
  | kv :: vs, lw :: ws => kv.1 == lw.1 && Value.beq kv.2 lw.2 && Value.beqObj vs ws
  | _, _ => false

end

theorem Value.beq_iff_eq : ∀ a b : Value, Value.beq a b = true ↔ a = b := by
  intro a
  induction a using Value.inductionOn with
  | hnull => intro b; cases b <;> simp [Value.beq]
  | hbool x => intro b; cases b <;> simp [Value.beq]
  | hint x => intro b; cases b <;> simp [Value.beq]
  | hfloat x => intro b; cases b <;> simp [Value.beq]
  | hstr x => intro b; cases b <;> simp [Value.beq]
  | harr l ih =>
    intro b
    cases b <;> simp only [Value.beq, Value.arr.injEq] <;> try simp
    case arr l2 =>
      induction l generalizing l2 with
      | nil => cases l2 <;> simp [Value.beqList]
      | cons v vs ihl =>
        cases l2 with
        | nil => simp [Value.beqList]
        | cons w ws =>
          have hv := ih v (by simp)
          have hvs := ihl (fun x hx => ih x (by simp [hx])) ws
          simp [Value.beqList, hv, hvs]
  | hobj l ih =>
    intro b
    cases b <;> simp only [Value.beq, Value.obj.injEq] <;> try simp
    case obj l2 =>
      induction l generalizing l2 with
      | nil => cases l2 <;> simp [Value.beqObj]
      | cons kv vs ihl =>
        cases l2 with
        | nil => simp [Value.beqObj]
        | cons lw ws =>
          have hv := ih kv (by simp)
          have hvs := ihl (fun x hx => ih x (by simp [hx])) ws
          simp [Value.beqObj, hv, hvs, Prod.ext_iff]

instance : DecidableEq Value := fun a b =>
  decidable_of_iff (Value.beq a b = true) (Value.beq_iff_eq a b)

theorem Value.beq_refl (v : Value) : Value.beq v v = true :=
  (Value.beq_iff_eq v v).mpr rfl

theorem Value.beq_eq_false_of_ne {a b : Value} (h : a ≠ b) :
    Value.beq a b = false := by
  cases hb : Value.beq a b
  · rfl
  · exact absurd ((Value.beq_iff_eq a b).mp hb) h

/-- The Python runtime type name of a value, as DeepDiff's type check
sees it (the exact textual rendering of a type in the report is
cosmetic; what matters is which values count as the same type). -/
def typeName : Value → String
  | .null => "NoneType"
  | .bool _ => "bool"
  | .int _ => "int"
  | .float _ => "float"
  | .str _ => "str"
  | .arr _ => "list"
  | .obj _ => "dict"

/-- Lookup in a Python dict embedded as an association list
(first binding wins; an actual Python dict never has duplicate keys). -/
def alookup (l : List (String × Value)) (k : String) : Option Value :=
  (l.find? fun kv => kv.1 == k).map (·.2)

/-- One segment of a DeepDiff report path.  The Python code flattens
paths such as `root['a'][0]` to strings and then strips the quoting with
`str.replace`; that cleaning is a fixed function of the structured path
and of nothing else, so diff properties proved over structured paths
transfer verbatim to the cleaned string keys. -/
inductive PathSeg where
  | key (k : String)
  | idx (i : Nat)
deriving DecidableEq

abbrev Path := List PathSeg

/-- The raw DeepDiff report, restricted to the six report categories
that `SnapshotDiff._compare_collector_data` consumes (the only ones a
JSON-shaped comparison with `ignore_order=True` can produce here). -/
structure RawDiff where
  dictAdded : List (Path × Value)
  dictRemoved : List (Path × Value)
  valuesChanged : List (Path × Value × Value)
  typeChanges : List (Path × String × String × Value × Value)
  iterAdded : List (Path × Value)
  iterRemoved : List (Path × Value)
deriving DecidableEq

def RawDiff.empty : RawDiff := ⟨[], [], [], [], [], []⟩

def RawDiff.union (a b : RawDiff) : RawDiff :=
  ⟨a.dictAdded ++ b.dictAdded, a.dictRemoved ++ b.dictRemoved,
   a.valuesChanged ++ b.valuesChanged, a.typeChanges ++ b.typeChanges,
   a.iterAdded ++ b.iterAdded, a.iterRemoved ++ b.iterRemoved⟩

mutual

/-- Model of `DeepDiff(t1, t2, ignore_order=True, verbose_level=2)` as
called by `SnapshotDiff` (diff.py).  DeepDiff is an external library;
this follows its documented default semantics: runtime types are
compared before values (so `int 10` vs `float 10` is a `type_changes`
report, the library's own flagship example of the default
`ignore_numeric_type_changes=False`), dicts are compared key-wise with
recursion on common keys, and with `ignore_order=True` iterables are
compared as collections of whole items.

The sequence case is deliberately partial: DeepDiff's default
distance-based pairing of *unequal* leftover items
(`cutoff_distance_for_pairs`), which moves paired items out of
`iterable_item_added`/`iterable_item_removed` into recursive reports,
is an undocumented implementation detail and is not modelled, and item
matching here is structural where DeepHash is dict-order-insensitive.
Accordingly, no theorem below quantifies into the
sequence-vs-sequence-with-unequal-elements region: the statements
proved reach sequences only where this simplification is invisible --
both sides structurally equal (empty report either way), or a sequence
against a non-sequence (a root `type_changes` either way). -/
def deepDiff (p : Path) (t1 t2 : Value) : RawDiff :=
  if Value.beq t1 t2 then .empty
  else
    match t1, t2 with
    | .obj f1, .obj f2 =>
      let added := (f2.filter fun kv => (alookup f1 kv.1).isNone).map
          fun kv => (p ++ [PathSeg.key kv.1], kv.2)
      let removed := (f1.filter fun kv => (alookup f2 kv.1).isNone).map
          fun kv => (p ++ [PathSeg.key kv.1], kv.2)
      let deep := deepDiffObj p f1 f2
      { dictAdded := added ++ deep.dictAdded
        dictRemoved := removed ++ deep.dictRemoved
        valuesChanged := deep.valuesChanged
        typeChanges := deep.typeChanges
        iterAdded := deep.iterAdded
        iterRemoved := deep.iterRemoved }
    | .arr l1, .arr l2 =>
      { RawDiff.empty with
        iterAdded := (l2.enum.filter fun iv => !(l1.any fun x => Value.beq x iv.2)).map
            fun iv => (p ++ [PathSeg.idx iv.1], iv.2)
        iterRemoved := (l1.enum.filter fun iv => !(l2.any fun x => Value.beq x iv.2)).map
            fun iv => (p ++ [PathSeg.idx iv.1], iv.2) }
    | a, b =>
      if typeName a = typeName b then { RawDiff.empty with valuesChanged := [(p, a, b)] }
      else { RawDiff.empty with typeChanges := [(p, typeName a, typeName b, a, b)] }

/-- Recursive dict comparison on the keys of `f1` that also occur in
`f2` (the keys present on only one side are handled in `deepDiff`). -/
def deepDiffObj (p : Path) : List (String × Value) → List (String × Value) → RawDiff
  | [], _ => .empty
  | kv :: rest, f2 =>
    match alookup f2 kv.1 with
    | some v2 =>
      RawDiff.union (deepDiff (p ++ [PathSeg.key kv.1]) kv.2 v2) (deepDiffObj p rest f2)
    | none => deepDiffObj p rest f2

end

/-- The per-category diff built by `SnapshotDiff._compare_collector_data`
(diff.py lines 49-106): each of the six members is present exactly when
the corresponding DeepDiff report category is nonempty (`absent`, not
empty-valued, otherwise), mirroring the `if '...' in diff:` guards. -/
structure CatDiff where
  added : Option (List (Path × Value))
  removed : Option (List (Path × Value))
  changed : Option (List (Path × Value × Value))
  type_changed : Option (List (Path × String × String × Value × Value))
  items_added : Option (List Value)
  items_removed : Option (List Value)
deriving DecidableEq

def someIfNonempty (l : List α) : Option (List α) :=
  if l.isEmpty then none else some l

/-- Reorganize a raw DeepDiff report into the result dict of
`_compare_collector_data`.  `items_added`/`items_removed` keep only the
item values (`result['items_added'].append(item)` iterates the report's
values); the other members keep path and values (`verbose_level=2`). -/
def organize (raw : RawDiff) : CatDiff :=
  { added := someIfNonempty raw.dictAdded
    removed := someIfNonempty raw.dictRemoved
    changed := someIfNonempty raw.valuesChanged
    type_changed := someIfNonempty raw.typeChanges
    items_added := someIfNonempty (raw.iterAdded.map (·.2))
    items_removed := someIfNonempty (raw.iterRemoved.map (·.2)) }

/-- `SnapshotDiff._compare_collector_data(data1, data2)`. -/
def compareCollectorData (d1 d2 : Value) : CatDiff :=
  organize (deepDiff [] d1 d2)

/-- Python truthiness of the result dict of `_compare_collector_data`
(`if collector_diff:` in `compare`): false iff no member is present. -/
def CatDiff.isEmpty (c : CatDiff) : Bool :=
  c.added.isNone && c.removed.isNone && c.changed.isNone &&
    c.type_changed.isNone && c.items_added.isNone && c.items_removed.isNone

def optTruthy : Option (List α) → Bool
  | none => false
  | some l => !l.isEmpty

/-- Truthiness test `any(collector_diff.get(key, {}) for key in [...])`
used by `has_changes`: some member is present with a nonempty value. -/
def CatDiff.anyChange (c : CatDiff) : Bool :=
  optTruthy c.added || optTruthy c.removed || optTruthy c.changed ||
    optTruthy c.type_changed || optTruthy c.items_added || optTruthy c.items_removed

/-- A snapshot record's data: the dict mapping collector/category names
to their fragments, as assembled by `SnapshotEngine.capture`. -/
abbrev Snapshot := List (String × Value)

/-- `snapshot.get(collector_name, {})` in `SnapshotDiff.compare`: an
absent category is replaced by an empty *dict*, whatever the structural
kind of the fragment on the other side. -/
def getFrag (s : Snapshot) (k : String) : Value :=
  (alookup s k).getD (.obj [])

/-- `set(list(snapshot1.keys()) + list(snapshot2.keys()))`.  A Python
set iterates in an unspecified order; first-occurrence order is one
admissible representative (no property proved here depends on it). -/
def unionKeys (s1 s2 : Snapshot) : List String :=
  (s1.map (·.1) ++ s2.map (·.1)).eraseDups

/-- `SnapshotDiff.compare` (diff.py lines 16-47).  The initial
`raw_diff = DeepDiff(snapshot1, snapshot2, ...)` computed there is dead
code (never read) and is not modelled.  A category appears in the
organized diff iff its collector diff dict is truthy. -/
def compare (s1 s2 : Snapshot) : List (String × CatDiff) :=
  (unionKeys s1 s2).filterMap fun k =>
    let cd := compareCollectorData (getFrag s1 k) (getFrag s2 k)
    if cd.isEmpty then none else some (k, cd)

/-- `SnapshotDiff.has_changes` (diff.py lines 108-117). -/
def has_changes (d : List (String × CatDiff)) : Bool :=
  d.any fun kc => kc.2.anyChange

/-! ## Storage (storage.py)

A row of the `snapshots` SQLite table.  The `data` column holds
`json.dumps(data)`; `json.loads`/`json.dumps` are a lossless inverse
pair of the Python standard library on JSON-representable values, so
the row is modelled as holding the snapshot value itself.  The store is
the list of table rows in rowid order: the table has a rowid, `name`
is unindexed so `WHERE id = ? OR name = ?` is a full scan in rowid
order, and `INSERT OR REPLACE` deletes the conflicting row and appends
a fresh row with a new maximal rowid. -/

structure Row where
  id : String
  name : String
  timestamp : Rat
  data : Snapshot
deriving DecidableEq

abbrev Store := List Row

/-- `SnapshotStorage.save_snapshot` (storage.py lines 40-50).  The row
timestamp is `time.time()` at save time, passed here explicitly as
`now`; the supplied `data` has no influence on it. -/
def save_snapshot (st : Store) (now : Rat) (snapshot_id name : String)
    (data : Snapshot) : Store :=
  (st.filter fun r => !(r.id == snapshot_id)) ++ [⟨snapshot_id, name, now, data⟩]

/-- `SnapshotStorage.get_snapshot` (storage.py lines 52-62):
`fetchone` on `SELECT data FROM snapshots WHERE id = ? OR name = ?`,
i.e. the first row in rowid order matching on id *or* name. -/
def get_snapshot (st : Store) (snapshot_id : String) : Option Snapshot :=
  (st.find? fun r => r.id == snapshot_id || r.name == snapshot_id).map (·.data)

/-- Descending insertion by timestamp; ties keep earlier rows first
(SQLite leaves tie order unspecified; this picks one admissible order). -/
def insertDesc (r : Row) : List Row → List Row
  | [] => [r]
  | x :: xs => if x.timestamp < r.timestamp then r :: x :: xs else x :: insertDesc r xs

def sortDesc : List Row → List Row
  | [] => []
  | x :: xs => insertDesc x (sortDesc xs)

/-- `SnapshotStorage.list_snapshots` (storage.py lines 64-77):
metadata of all rows, `ORDER BY timestamp DESC`. -/
def list_snapshots (st : Store) : List (String × String × Rat) :=
  (sortDesc st).map fun r => (r.id, r.name, r.timestamp)

/-- `SnapshotStorage.snapshot_exists` (storage.py lines 89-96). -/
def snapshot_exists (st : Store) (s : String) : Bool :=
  st.any fun r => r.id == s || r.name == s

/-- `SnapshotStorage.delete_snapshot` (storage.py lines 79-87): the
store after deletion, and whether any row was deleted. -/
def delete_snapshot (st : Store) (s : String) : Store × Bool :=
  (st.filter fun r => !(r.id == s || r.name == s),
   st.any fun r => r.id == s || r.name == s)

/-! ## Capture orchestration (snapshot.py) -/

/-- A registered collector, seen from `SnapshotEngine.capture`: its
derived category name (`__class__.__name__` with `Collector` stripped,
lowercased -- the derivation itself is Python reflection and is taken
as given) and the outcome of its `collect()` call, a fragment or a
raised exception's message. -/
structure Collector where
  name : String
  result : Except String Value

/-- The in-band error-marker fragment substituted for a failing
collector: `{'error': f'Collection failed: {str(e)}'}`. -/
def errorMarker (msg : String) : Value :=
  .obj [("error", .str ("Collection failed: " ++ msg))]

/-- What `capture` stores for one collector: the collected fragment, or
the error marker if `collect()` raised. -/
def collectOutcome (c : Collector) : Value :=
  match c.result with
  | .ok v => v
  | .error msg => errorMarker msg

/-- Python dict assignment `d[k] = v`: overwrite in place if the key
exists, else append. -/
def dictInsert (d : List (String × Value)) (k : String) (v : Value) :
    List (String × Value) :=
  if d.any fun kv => kv.1 == k then d.map fun kv => if kv.1 == k then (k, v) else kv
  else d ++ [(k, v)]

/-- `SnapshotEngine.capture` (snapshot.py lines 24-43): one pass over
the collectors, each invoked once, a failing collector contributing its
error marker instead of aborting.  The embedding is a total function:
`capture` itself raises nothing (every exception from a `collect()`
call is caught inside the loop). -/
def capture (cs : List Collector) : Snapshot :=
  cs.foldl (fun acc c => dictInsert acc c.name (collectOutcome c)) []

/-! ## CLI compare command (cli.py) -/

/-- Python truthiness of `storage_engine.get_snapshot(...)` as used by
`if not snapshot1_data:`: `None` and the empty dict are both falsy. -/
def pyTruthy (d : Option Snapshot) : Bool :=
  match d with
  | none => false
  | some s => !s.isEmpty

/-- Exit code of the `compare` CLI command (cli.py lines 72-109):
missing snapshot -> print error, exit 1; differences found -> exit 1
("like git diff"); no differences -> normal return, exit 0.  Store
exceptions are likewise caught and mapped to exit 1.  When no second
snapshot name is given the live capture `current` is compared (with no
truthiness check on it). -/
def compareCmd (st : Store) (snap1 : String) (snap2 : Option String)
    (current : Snapshot) : Nat :=
  let d1 := get_snapshot st snap1
  if !pyTruthy d1 then 1
  else
    match snap2 with
    | some s2 =>
      let d2 := get_snapshot st s2
      if !pyTruthy d2 then 1
      else if has_changes (compare (d1.getD []) (d2.getD [])) then 1 else 0
    | none =>
      if has_changes (compare (d1.getD []) current) then 1 else 0

/-! ## Supporting lemmas -/

@[simp] theorem RawDiff.empty_dictAdded : RawDiff.empty.dictAdded = [] := rfl
@[simp] theorem RawDiff.empty_dictRemoved : RawDiff.empty.dictRemoved = [] := rfl
@[simp] theorem RawDiff.empty_valuesChanged : RawDiff.empty.valuesChanged = [] := rfl
@[simp] theorem RawDiff.empty_typeChanges : RawDiff.empty.typeChanges = [] := rfl
@[simp] theorem RawDiff.empty_iterAdded : RawDiff.empty.iterAdded = [] := rfl
@[simp] theorem RawDiff.empty_iterRemoved : RawDiff.empty.iterRemoved = [] := rfl

@[simp] theorem RawDiff.union_dictAdded (a b : RawDiff) :
    (a.union b).dictAdded = a.dictAdded ++ b.dictAdded := rfl
@[simp] theorem RawDiff.union_dictRemoved (a b : RawDiff) :
    (a.union b).dictRemoved = a.dictRemoved ++ b.dictRemoved := rfl
@[simp] theorem RawDiff.union_iterAdded (a b : RawDiff) :
    (a.union b).iterAdded = a.iterAdded ++ b.iterAdded := rfl
@[simp] theorem RawDiff.union_iterRemoved (a b : RawDiff) :
    (a.union b).iterRemoved = a.iterRemoved ++ b.iterRemoved := rfl

/-- Diffing a value against itself yields the empty report. -/
theorem deepDiff_self (p : Path) (v : Value) : deepDiff p v v = .empty := by
  unfold deepDiff
  simp [Value.beq_refl]

theorem compareCollectorData_self (v : Value) :
    compareCollectorData v v = organize .empty := by
  rw [compareCollectorData, deepDiff_self]

theorem organize_empty_isEmpty : (organize .empty).isEmpty = true := by
  rfl

/-- `find?` hits the first matching element. -/
theorem find?_append_first {α} (p : α → Bool) (pre : List α) (r : α) (post : List α)
    (hpre : ∀ x ∈ pre, p x = false) (hr : p r = true) :
    (pre ++ r :: post).find? p = some r := by
  induction pre with
  | nil => simp [List.find?_cons, hr]
  | cons x xs ih =>
    have hx := hpre x (by simp)
    simp only [List.cons_append, List.find?_cons, hx, cond_false]
    exact ih fun y hy => hpre y (by simp [hy])

/-- `get_snapshot` returns the first row in rowid order whose id or
name matches. -/
theorem get_snapshot_first_match (pre : Store) (r : Row) (post : Store) (s : String)
    (hpre : ∀ x ∈ pre, x.id ≠ s ∧ x.name ≠ s) (hr : r.id = s ∨ r.name = s) :
    get_snapshot (pre ++ r :: post) s = some r.data := by
  unfold get_snapshot
  rw [find?_append_first]
  · rfl
  · intro x hx
    have := hpre x hx
    simp [this.1, this.2]
  · rcases hr with h | h <;> simp [h]

theorem sortDesc_append_max (l : List Row) (r : Row)
    (h : ∀ x ∈ l, x.timestamp < r.timestamp) :
    sortDesc (l ++ [r]) = r :: sortDesc l := by
  induction l with
  | nil => rfl
  | cons x xs ih =>
    have hx := h x (by simp)
    simp only [List.cons_append, sortDesc, List.append_eq]
    rw [ih fun y hy => h y (by simp [hy])]
    simp [insertDesc, not_lt_of_lt hx]

theorem deepDiffObj_nil_right (p : Path) : ∀ f, deepDiffObj p f [] = .empty := by
  intro f
  induction f with
  | nil => rfl
  | cons kv rest ih => simp [deepDiffObj, alookup, ih]

/-- `capture`'s fold appends one `(name, outcome)` pair per collector
when no derived name repeats (neither among the collectors nor against
the accumulator). -/
theorem capture_go_spec (cs : List Collector) : ∀ (acc : Snapshot),
    (acc.map Prod.fst ++ cs.map fun c => c.name).Nodup →
    cs.foldl (fun a c => dictInsert a c.name (collectOutcome c)) acc =
      acc ++ cs.map fun c => (c.name, collectOutcome c) := by
  induction cs with
  | nil => intro acc _; simp
  | cons c rest ih =>
    intro acc h
    have hdisj := (List.nodup_append.mp h).2.2
    have hnotin : c.name ∉ acc.map Prod.fst := fun hmem =>
      hdisj hmem (by simp)
    have hany : (acc.any fun kv => kv.1 == c.name) = false := by
      rw [List.any_eq_false]
      intro kv hkv
      simp only [beq_iff_eq]
      exact fun he => hnotin (he ▸ List.mem_map_of_mem Prod.fst hkv)
    have hins : dictInsert acc c.name (collectOutcome c) =
        acc ++ [(c.name, collectOutcome c)] := by
      unfold dictInsert
      rw [hany]
      rfl
    have hnodup : ((acc ++ [(c.name, collectOutcome c)]).map Prod.fst ++
        rest.map fun x => x.name).Nodup := by
      simpa using h
    calc (c :: rest).foldl (fun a x => dictInsert a x.name (collectOutcome x)) acc
        = rest.foldl (fun a x => dictInsert a x.name (collectOutcome x))
            (acc ++ [(c.name, collectOutcome c)]) := by rw [List.foldl_cons, hins]
      _ = acc ++ [(c.name, collectOutcome c)] ++
            rest.map (fun x => (x.name, collectOutcome x)) := ih _ hnodup
      _ = acc ++ (c :: rest).map fun x => (x.name, collectOutcome x) := by simp

/-! ## Claims -/

/-- C6: diffing a snapshot against a structurally identical copy yields
an empty Change Set, and `has_changes` of that result is false, for any
snapshot content. -/
theorem claim_C6 (s : Snapshot) :
    compare s s = [] ∧ has_changes (compare s s) = false := by
  have hc : compare s s = [] := by
    unfold compare
    apply List.filterMap_eq_nil_iff.mpr
    intro k _
    simp [compareCollectorData_self, organize, someIfNonempty, CatDiff.isEmpty]
  exact ⟨hc, by rw [hc]; rfl⟩

/-- C9: when no record's id or name equals the lookup string, `get_snapshot`
returns absent (not an error -- the embedding is a total function into
`Option`), and `snapshot_exists` returns false. -/
theorem claim_C9 (st : Store) (s : String)
    (h : ∀ r ∈ st, r.id ≠ s ∧ r.name ≠ s) :
    get_snapshot st s = none ∧ snapshot_exists st s = false := by
  constructor
  · unfold get_snapshot
    have hf : st.find? (fun r => r.id == s || r.name == s) = none :=
      List.find?_eq_none.mpr fun x hx => by
        have hm := h x hx
        simp [hm.1, hm.2]
    rw [hf]; rfl
  · unfold snapshot_exists
    simp only [List.any_eq_false]
    intro x hx
    have hm := h x hx
    simp [hm.1, hm.2]

/-- Witness for C9: a store with one unrelated record misses `"ghost"`. -/
theorem claim_C9_witness :
    get_snapshot [⟨"a", "b", 1, []⟩] "ghost" = none ∧
    snapshot_exists [⟨"a", "b", 1, []⟩] "ghost" = false :=
  claim_C9 [⟨"a", "b", 1, []⟩] "ghost" (by decide)

/-- C1 counterexample: the store holds row (id `"a"`, name `"x"`)
inserted before row (id `"x"`, name `"y"`).  A record whose id equals
`"x"` exists, yet `get_snapshot "x"` returns the *earlier* row matched
by name, because `WHERE id = ? OR name = ?` with `fetchone` takes the
first matching row in rowid order -- id match does not win. -/
theorem claim_C1_counterexample :
    get_snapshot [⟨"a", "x", 1, [("env", .str "first")]⟩,
                  ⟨"x", "y", 2, [("env", .str "second")]⟩] "x"
      = some [("env", Value.str "first")] ∧
    (⟨"x", "y", 2, [("env", .str "second")]⟩ : Row) ∈
      ([⟨"a", "x", 1, [("env", .str "first")]⟩,
        ⟨"x", "y", 2, [("env", .str "second")]⟩] : Store) ∧
    ([("env", Value.str "first")] : Snapshot) ≠ [("env", Value.str "second")] := by
  decide

/-- C1 amended: `get_snapshot s` returns the data of the earliest row
(in rowid order) whose id *or* name equals `s`; an id match has no
precedence over an earlier row's name match.  (Absence on a total miss
is C9.) -/
theorem claim_C1_amended (pre : Store) (r : Row) (post : Store) (s : String)
    (hpre : ∀ x ∈ pre, x.id ≠ s ∧ x.name ≠ s) (hr : r.id = s ∨ r.name = s) :
    get_snapshot (pre ++ r :: post) s = some r.data :=
  get_snapshot_first_match pre r post s hpre hr

/-- Witness for the amended C1: a name-matching row behind one
non-matching row is returned. -/
theorem claim_C1_amended_witness :
    get_snapshot [⟨"a", "b", 1, []⟩, ⟨"c", "x", 2, [("k", .null)]⟩] "x"
      = some [("k", Value.null)] :=
  claim_C1_amended [⟨"a", "b", 1, []⟩] ⟨"c", "x", 2, [("k", .null)]⟩ [] "x"
    (by decide) (by decide)

/-- C5 counterexample: the store already holds a row whose *name* is
`"x"`; after `save_snapshot` with id `"x"`, `get_snapshot "x"` still
returns the earlier row's data (matched by name, earlier rowid), not
the just-saved data -- save-then-get is not a round trip on such a
store. -/
theorem claim_C5_counterexample :
    get_snapshot
        (save_snapshot [⟨"a", "x", 1, [("env", .str "old")]⟩] 2 "x" "x"
          [("env", .str "new")]) "x"
      = some [("env", Value.str "old")] ∧
    ([("env", Value.str "old")] : Snapshot) ≠ [("env", Value.str "new")] := by
  decide

/-- C5 amended: provided no *other* record's name equals `R.id`
(in particular on a store that never reused the id as a name),
`save_snapshot(R.id, R.name, R.data)` followed by `get_snapshot(R.id)`
returns data structurally equal to `R.data` -- the stored value is kept
verbatim (the JSON serialization round-trips losslessly). -/
theorem claim_C5_amended (st : Store) (now : Rat) (i nm : String) (d : Snapshot)
    (h : ∀ r ∈ st, r.name = i → r.id = i) :
    get_snapshot (save_snapshot st now i nm d) i = some d := by
  unfold save_snapshot
  refine get_snapshot_first_match (st.filter fun r => !(r.id == i)) ⟨i, nm, now, d⟩ [] i
    ?_ (Or.inl rfl)
  intro x hx
  rw [List.mem_filter] at hx
  obtain ⟨hmem, hid⟩ := hx
  have hid' : x.id ≠ i := by simpa using hid
  exact ⟨hid', fun hn => hid' (h x hmem hn)⟩

/-- Witness for the amended C5: round trip through an empty store,
with a nested error-marker fragment in the data. -/
theorem claim_C5_witness :
    get_snapshot (save_snapshot [] 1 "snap-1" "snap-1"
        [("system", errorMarker "boom"), ("env", .obj [("A", .str "v")])]) "snap-1"
      = some [("system", errorMarker "boom"), ("env", .obj [("A", .str "v")])] :=
  claim_C5_amended [] 1 "snap-1" "snap-1"
    [("system", errorMarker "boom"), ("env", .obj [("A", .str "v")])] (by simp)

/-- C10: the stored row's timestamp comes from the clock at save time
(`time.time()`, passed here explicitly as `now`), for *every* supplied
`data` -- any timestamp inside the data is ignored; and when the save
instant is later than every stored timestamp, the saved record (id,
name, save instant) heads `list_snapshots`' descending order, ahead of
all earlier-saved records.  Re-saving an existing id is the same
statement: the old row is replaced, so its timestamp becomes `now`. -/
theorem claim_C10 (st : Store) (now : Rat) (i nm : String) (d : Snapshot)
    (h : ∀ r ∈ st, r.timestamp < now) :
    (list_snapshots (save_snapshot st now i nm d)).head? = some (i, nm, now) ∧
    (save_snapshot st now i nm d).find? (fun r => r.id == i) = some ⟨i, nm, now, d⟩ := by
  constructor
  · unfold list_snapshots save_snapshot
    rw [sortDesc_append_max _ _ fun x hx => h x (List.mem_filter.mp hx).1]
    rfl
  · unfold save_snapshot
    refine find?_append_first _ _ _ _ (fun x hx => ?_) (by simp)
    have hid := (List.mem_filter.mp hx).2
    simpa using hid

/-- Witness for C10: one earlier row at timestamp 1, re-saved id at
timestamp 2 heads the listing. -/
theorem claim_C10_witness :
    (list_snapshots (save_snapshot [⟨"a", "a", 1, []⟩] 2 "a" "fresh"
        [("env", .null)])).head? = some ("a", "fresh", 2) ∧
    (save_snapshot [⟨"a", "a", 1, []⟩] 2 "a" "fresh" [("env", .null)]).find?
        (fun r => r.id == "a") = some ⟨"a", "fresh", 2, [("env", .null)]⟩ :=
  claim_C10 [⟨"a", "a", 1, []⟩] 2 "a" "fresh" [("env", .null)] (by decide)

/-- C3 counterexample: on a concrete store, "snapshot not found"
(a failure) and "completed with differences found" both exit with
code 1 -- the three outcomes of `compare` are *not* pairwise distinct. -/
theorem claim_C3_counterexample :
    (snapshot_exists [⟨"s1", "s1", 1, [("env", .obj [("A", .str "v")])]⟩,
        ⟨"s2", "s2", 2, [("env", .obj [("A", .str "w")])]⟩] "missing" = false ∧
      compareCmd [⟨"s1", "s1", 1, [("env", .obj [("A", .str "v")])]⟩,
        ⟨"s2", "s2", 2, [("env", .obj [("A", .str "w")])]⟩] "missing" (some "s2") [] = 1) ∧
    (has_changes (compare [("env", .obj [("A", .str "v")])]
        [("env", .obj [("A", .str "w")])]) = true ∧
      compareCmd [⟨"s1", "s1", 1, [("env", .obj [("A", .str "v")])]⟩,
        ⟨"s2", "s2", 2, [("env", .obj [("A", .str "w")])]⟩] "s1" (some "s2") [] = 1) := by
  decide

/-- C3 amended: "no differences" (exit 0) is distinct from both
"differences found" and "failure", but the latter two share exit code 1
and are not distinguishable by exit signal. -/
theorem claim_C3_amended (st : Store) (s1 t2 : String) (cur : Snapshot) :
    (pyTruthy (get_snapshot st s1) = false →
      compareCmd st s1 (some t2) cur = 1) ∧
    (pyTruthy (get_snapshot st s1) = true →
      pyTruthy (get_snapshot st t2) = false →
      compareCmd st s1 (some t2) cur = 1) ∧
    (pyTruthy (get_snapshot st s1) = true →
      pyTruthy (get_snapshot st t2) = true →
      has_changes (compare ((get_snapshot st s1).getD [])
        ((get_snapshot st t2).getD [])) = true →
      compareCmd st s1 (some t2) cur = 1) ∧
    (pyTruthy (get_snapshot st s1) = true →
      pyTruthy (get_snapshot st t2) = true →
      has_changes (compare ((get_snapshot st s1).getD [])
        ((get_snapshot st t2).getD [])) = false →
      compareCmd st s1 (some t2) cur = 0) := by
  refine ⟨fun h1 => ?_, fun h1 h2 => ?_, fun h1 h2 h3 => ?_, fun h1 h2 h3 => ?_⟩ <;>
    simp [compareCmd, h1]
  · simp [h2]
  · simp [h2, h3]
  · simp [h2, h3]

/-- Witness for the amended C3: one store exercising all three branches. -/
theorem claim_C3_witness :
    compareCmd [⟨"s1", "s1", 1, [("env", .obj [("A", .str "v")])]⟩,
        ⟨"s2", "s2", 2, [("env", .obj [("A", .str "w")])]⟩] "missing" (some "s2") [] = 1 ∧
    compareCmd [⟨"s1", "s1", 1, [("env", .obj [("A", .str "v")])]⟩,
        ⟨"s2", "s2", 2, [("env", .obj [("A", .str "w")])]⟩] "s1" (some "s2") [] = 1 ∧
    compareCmd [⟨"s1", "s1", 1, [("env", .obj [("A", .str "v")])]⟩,
        ⟨"s2", "s2", 2, [("env", .obj [("A", .str "w")])]⟩] "s1" (some "s1") [] = 0 :=
  ⟨(claim_C3_amended _ "missing" "s2" []).1 (by decide),
   (claim_C3_amended _ "s1" "s2" []).2.2.1 (by decide) (by decide) (by decide),
   (claim_C3_amended _ "s1" "s1" []).2.2.2 (by decide) (by decide) (by decide)⟩

/-- C2 counterexample: the spec's own scenario -- `{"cpu_percent": 10.0}`
vs `{"cpu_percent": 10}` -- *does* produce a `type_changed` entry and
`has_changes` is true, because the code calls DeepDiff without
`ignore_numeric_type_changes`, whose default compares runtime types
before numeric values. -/
theorem claim_C2_counterexample :
    (compareCollectorData (.obj [("cpu_percent", .float 10)])
        (.obj [("cpu_percent", .int 10)])).type_changed ≠ none ∧
    has_changes (compare [("system", .obj [("cpu_percent", .float 10)])]
        [("system", .obj [("cpu_percent", .int 10)])]) = true := by
  decide

/-- C2 amended: for a key holding numeric scalars of equal value but
different representation (float vs int), the diff contains a
`type_changed` entry for that key and *no* `changed` entry, and
`has_changes` is true for that category. -/
theorem claim_C2_amended (k : String) (n : Int) (q : Rat)
    (_hval : q.num = n ∧ q.den = 1) :
    (compareCollectorData (.obj [(k, .float q)]) (.obj [(k, .int n)])).type_changed
      = some [([PathSeg.key k], "float", "int", .float q, .int n)] ∧
    (compareCollectorData (.obj [(k, .float q)]) (.obj [(k, .int n)])).changed = none ∧
    (compareCollectorData (.obj [(k, .float q)]) (.obj [(k, .int n)])).anyChange = true ∧
    has_changes (compare [("system", .obj [(k, .float q)])]
      [("system", .obj [(k, .int n)])]) = true := by
  have hne : Value.beq (.obj [(k, .float q)]) (.obj [(k, .int n)]) = false := by
    simp [Value.beq, Value.beqObj]
  have hfi : ∀ p : Path, deepDiff p (.float q) (.int n) =
      { RawDiff.empty with typeChanges := [(p, "float", "int", .float q, .int n)] } := by
    intro p
    unfold deepDiff
    rfl
  have hdd : deepDiff [] (.obj [(k, .float q)]) (.obj [(k, .int n)]) =
      { RawDiff.empty with
        typeChanges := [([PathSeg.key k], "float", "int", .float q, .int n)] } := by
    unfold deepDiff
    simp [hne, alookup, deepDiffObj, RawDiff.union, RawDiff.empty, hfi]
  have hc : compareCollectorData (.obj [(k, .float q)]) (.obj [(k, .int n)]) =
      { added := none, removed := none, changed := none,
        type_changed := some [([PathSeg.key k], "float", "int", .float q, .int n)],
        items_added := none, items_removed := none } := by
    unfold compareCollectorData
    rw [hdd]
    rfl
  refine ⟨by rw [hc], by rw [hc], by rw [hc]; rfl, ?_⟩
  unfold compare has_changes unionKeys
  simp only [List.map, List.cons_append, List.nil_append]
  rw [show (["system", "system"] : List String).eraseDups = ["system"] from by decide]
  simp [getFrag, alookup, hc, CatDiff.isEmpty, CatDiff.anyChange, optTruthy]

/-- Witness for the amended C2 at the spec scenario's values. -/
theorem claim_C2_witness :
    (compareCollectorData (.obj [("cpu_percent", .float 10)])
        (.obj [("cpu_percent", .int 10)])).type_changed
      = some [([PathSeg.key "cpu_percent"], "float", "int", .float 10, .int 10)] ∧
    (compareCollectorData (.obj [("cpu_percent", .float 10)])
        (.obj [("cpu_percent", .int 10)])).changed = none ∧
    (compareCollectorData (.obj [("cpu_percent", .float 10)])
        (.obj [("cpu_percent", .int 10)])).anyChange = true ∧
    has_changes (compare [("system", .obj [("cpu_percent", .float 10)])]
      [("system", .obj [("cpu_percent", .int 10)])]) = true :=
  claim_C2_amended "cpu_percent" 10 10 (by decide)

/-- C4 counterexample: a sequence-valued category (`processes`) present
on one side and absent on the other is *not* reported as
`items_added`/`items_removed` per item; the absent side defaults to an
empty dict, so the whole category surfaces as a single root-level
`type_changed` (dict vs list) -- exactly the category-level flag the
claim rules out. -/
theorem claim_C4_counterexample :
    (compareCollectorData (.obj [])
        (.arr [.obj [("pid", .int 123), ("name", .str "x")]])).items_added = none ∧
    (compareCollectorData (.obj [])
        (.arr [.obj [("pid", .int 123), ("name", .str "x")]])).type_changed
      = some [([], "dict", "list", .obj [],
          .arr [.obj [("pid", .int 123), ("name", .str "x")]])] := by
  decide

/-- C4 amended: an absent category is always compared against an empty
*mapping* (`snapshot.get(name, {})`), not an empty value of the present
fragment's kind.  Mapping-valued fragments therefore surface as
wholesale `added` (resp. `removed`) entries for every key, but
sequence-valued fragments surface as a single root `type_changed`
(dict vs list), with no per-item entries. -/
theorem claim_C4_amended :
    (∀ (f : List (String × Value)), f ≠ [] →
      compareCollectorData (.obj []) (.obj f) =
        { added := some (f.map fun kv => ([PathSeg.key kv.1], kv.2)),
          removed := none, changed := none, type_changed := none,
          items_added := none, items_removed := none }) ∧
    (∀ (f : List (String × Value)), f ≠ [] →
      compareCollectorData (.obj f) (.obj []) =
        { added := none,
          removed := some (f.map fun kv => ([PathSeg.key kv.1], kv.2)),
          changed := none, type_changed := none,
          items_added := none, items_removed := none }) ∧
    (∀ (l : List Value),
      compareCollectorData (.obj []) (.arr l) =
        { added := none, removed := none, changed := none,
          type_changed := some [([], "dict", "list", .obj [], .arr l)],
          items_added := none, items_removed := none }) ∧
    (∀ (l : List Value),
      compareCollectorData (.arr l) (.obj []) =
        { added := none, removed := none, changed := none,
          type_changed := some [([], "list", "dict", .arr l, .obj [])],
          items_added := none, items_removed := none }) := by
  refine ⟨fun f hf => ?_, fun f hf => ?_, fun l => ?_, fun l => ?_⟩
  · have hne : Value.beq (.obj []) (.obj f) = false :=
      Value.beq_eq_false_of_ne (by simp [Ne.symm hf])
    have hfe : f.map (fun kv => ([PathSeg.key kv.1], kv.2)) ≠ [] := by
      simpa using hf
    unfold compareCollectorData
    unfold deepDiff
    simp [hne, alookup, deepDiffObj, organize, someIfNonempty,
      List.filter_eq_self.mpr (fun kv _ => by rfl), hfe,
      List.isEmpty_iff]
  · have hne : Value.beq (.obj f) (.obj []) = false :=
      Value.beq_eq_false_of_ne (by simp [hf])
    have hfe : f.map (fun kv => ([PathSeg.key kv.1], kv.2)) ≠ [] := by
      simpa using hf
    unfold compareCollectorData
    unfold deepDiff
    simp [hne, alookup, deepDiffObj_nil_right, organize, someIfNonempty,
      List.filter_eq_self.mpr (fun kv _ => by rfl), hfe,
      List.isEmpty_iff]
  · have hne : Value.beq (.obj []) (.arr l) = false := rfl
    unfold compareCollectorData
    unfold deepDiff
    simp [hne, organize, someIfNonempty, typeName]
  · have hne : Value.beq (.arr l) (.obj []) = false := rfl
    unfold compareCollectorData
    unfold deepDiff
    simp [hne, organize, someIfNonempty, typeName]

/-- Witness for the amended C4: a one-key mapping category and a
one-item sequence category, each against an absent side. -/
theorem claim_C4_witness :
    compareCollectorData (.obj []) (.obj [("A", .str "v")]) =
      { added := some [([PathSeg.key "A"], .str "v")],
        removed := none, changed := none, type_changed := none,
        items_added := none, items_removed := none } ∧
    compareCollectorData (.obj []) (.arr [.int 1]) =
      { added := none, removed := none, changed := none,
        type_changed := some [([], "dict", "list", .obj [], .arr [.int 1])],
        items_added := none, items_removed := none } :=
  ⟨claim_C4_amended.1 [("A", .str "v")] (by simp),
   claim_C4_amended.2.2.1 [.int 1]⟩

/-- C8 counterexample: two collectors whose classes share the derived
category name -- the second's fragment overwrites the first's, so
capture returns *one* category for *two* collectors, not one category
per collector. -/
theorem claim_C8_counterexample :
    capture [⟨"system", .ok (.obj [("a", .int 1)])⟩,
             ⟨"system", .ok (.obj [("b", .int 2)])⟩]
      = [("system", .obj [("b", .int 2)])] ∧
    (capture [⟨"system", .ok (.obj [("a", .int 1)])⟩,
              ⟨"system", .ok (.obj [("b", .int 2)])⟩]).length = 1 ∧
    ([⟨"system", .ok (.obj [("a", .int 1)])⟩,
      ⟨"system", .ok (.obj [("b", .int 2)])⟩] : List Collector).length = 2 := by
  decide

/-- C8 amended: when the collectors' derived category names are
pairwise distinct (true of the registered collectors), `capture`
invokes each collector exactly once -- the result is the one-pass map
of the collector list -- and returns one category per collector,
holding that collector's fragment, or the `error`-marker mapping with
the descriptive message if its `collect()` raised; other collectors'
categories are unaffected.  `capture` is a total function: it never
raises. -/
theorem claim_C8_amended (cs : List Collector)
    (h : (cs.map fun c => c.name).Nodup) :
    capture cs = (cs.map fun c => (c.name, collectOutcome c)) ∧
    (capture cs).length = cs.length ∧
    (∀ c ∈ cs, ∀ msg, c.result = .error msg →
      (c.name, errorMarker msg) ∈ capture cs) := by
  have hmain : capture cs = cs.map fun c => (c.name, collectOutcome c) := by
    unfold capture
    simpa using capture_go_spec cs [] (by simpa using h)
  refine ⟨hmain, by rw [hmain]; simp, ?_⟩
  intro c hc msg hmsg
  rw [hmain]
  have : (c.name, errorMarker msg) = (c.name, collectOutcome c) := by
    simp [collectOutcome, hmsg]
  rw [this]
  exact List.mem_map_of_mem _ hc

/-- Witness for the amended C8: a healthy collector and a failing one. -/
theorem claim_C8_witness :
    capture [⟨"processes", .ok (.arr [])⟩, ⟨"system", .error "boom"⟩] =
      [("processes", .arr []), ("system", errorMarker "boom")] :=
  (claim_C8_amended [⟨"processes", .ok (.arr [])⟩, ⟨"system", .error "boom"⟩]
    (by decide)).1.trans (by decide)

end Envdiff
